import Mathlib

/-!
Verification of the multi-tenant CRM backend (src/backend/src/index.ts).

The backend is a Cloudflare Workers application: a set of HTTP handlers over a
relational store, guarded by a JWT authentication middleware and a rate-limiting
helper. This file embeds the data model and the handlers shallowly:

* the D1 database is a record of row lists, one per table; SQL statements become
  list operations (filter, find?, map, append) in statement order;
* JavaScript numbers are modeled as rationals (every value the handlers compute
  here is exactly representable);
* JavaScript falsy defaulting (x or-or d) is modeled by explicit helpers that
  treat 0 and the empty string as absent, exactly as the source does;
* timestamps are naturals (milliseconds where the source uses Date.getTime and
  ISO-8601 strings, which compare chronologically; seconds where the source uses
  Math.floor(Date.now() / 1000));
* the platform primitives btoa/JSON.stringify/HMAC-SHA256 (crypto.subtle) and
  bcrypt are not code of this repository; they are modeled symbolically as
  injective constructors (the ideal-MAC / collision-free-encoding reading), so
  that the control flow of generateJWT/verifyJWT is kept verbatim while the
  byte-level encodings are abstracted.
-/

/-! ## JavaScript falsy-defaulting helpers -/

/-- Models the JavaScript expression (x or-or d) on an optional number: undefined
and 0 are falsy and yield the default. -/
def jsOrNum (x : Option ℚ) (d : ℚ) : ℚ :=
  match x with
  | none => d
  | some a => if a = 0 then d else a

/-- Models the JavaScript expression (x or-or null) on an optional number. -/
def jsNumOrNull (x : Option ℚ) : Option ℚ :=
  match x with
  | none => none
  | some a => if a = 0 then none else some a

/-- Models the JavaScript expression (x or-or null) on an optional integer id. -/
def jsNatOrNull (x : Option Nat) : Option Nat :=
  match x with
  | none => none
  | some a => if a = 0 then none else some a

/-- Models the JavaScript expression (x or-or d) on an optional string: undefined
and the empty string are falsy and yield the default. -/
def jsOrStr (x : Option String) (d : String) : String :=
  match x with
  | none => d
  | some s => if s = "" then d else s

/-- Models the JavaScript expression (x or-or null) on an optional string. -/
def jsStrOrNull (x : Option String) : Option String :=
  match x with
  | none => none
  | some s => if s = "" then none else some s

/-! ## Generic list helpers (ORDER BY and substring search) -/

/-- Insertion step of an insertion sort with a boolean comparator. -/
def insertBy {α : Type} (le : α → α → Bool) (a : α) : List α → List α
  | [] => [a]
  | b :: bs => if le a b then a :: b :: bs else b :: insertBy le a bs

/-- Insertion sort with a boolean comparator; models a SQL ORDER BY clause. -/
def sortBy {α : Type} (le : α → α → Bool) : List α → List α
  | [] => []
  | a :: as => insertBy le a (sortBy le as)

theorem mem_insertBy {α : Type} {le : α → α → Bool} {a x : α} {l : List α} :
    x ∈ insertBy le a l ↔ x = a ∨ x ∈ l := by
  induction l with
  | nil => simp [insertBy]
  | cons b bs ih =>
    by_cases h : le a b
    · simp [insertBy, h]
    · simp only [insertBy, if_neg h, List.mem_cons, ih]
      tauto

theorem mem_sortBy {α : Type} {le : α → α → Bool} {x : α} {l : List α} :
    x ∈ sortBy le l ↔ x ∈ l := by
  induction l with
  | nil => simp [sortBy]
  | cons b bs ih => simp [sortBy, mem_insertBy, ih]

/-- Whether the character list needle occurs as a contiguous run inside the
second list. -/
def hasSub (needle : List Char) : List Char → Bool
  | [] => needle.isEmpty
  | c :: rest => needle.isPrefixOf (c :: rest) || hasSub needle rest

/-- Models the JavaScript String.prototype.includes test used by the auth
middleware path check. -/
def pathIncludes (s pat : String) : Bool :=
  hasSub pat.toList s.toList

/-! ## Token issuance and verification (src/backend/src/index.ts lines 118-167)

The payload the login handler signs, the claims object generateJWT builds from
it, and the three dot-separated token segments.  btoa(JSON.stringify ...) and
the HMAC-SHA256 tag of signHS256 are platform primitives (btoa, JSON,
crypto.subtle), not code of this repository; each encoding is modeled as an
injective constructor of the segment type, so distinct encoded inputs give
distinct segment strings, and an arbitrary attacker-chosen segment string is a
raw segment. -/

/-- Identity payload signed at login: userId, tenantId, email, role. -/
structure AuthPayload where
  userId : Nat
  tenantId : Nat
  email : String
  role : String
deriving DecidableEq

/-- The claims object generateJWT signs: the payload spread together with
issued-at and expiry (both in seconds). -/
structure JWTClaims where
  payload : AuthPayload
  iat : Nat
  exp : Nat
deriving DecidableEq

/-- One dot-separated segment of a token string. -/
inductive Seg where
  | headerHS256 : Seg
  | claims (c : JWTClaims) : Seg
  | mac (secret : String) (header : Seg) (payload : Seg) : Seg
  | raw (s : String) : Seg
deriving DecidableEq

/-- A token split at its dots, as verifyJWT destructures it. -/
structure Token where
  header : Seg
  payload : Seg
  signature : Seg
deriving DecidableEq

/-- signHS256(data, secret): the HMAC-SHA256 tag over header.payload, modeled
symbolically (crypto.subtle is a platform primitive). -/
def signHS256 (secret : String) (header payload : Seg) : Seg :=
  Seg.mac secret header payload

/-- generateJWT (lines 118-133): builds claims with iat = now and
exp = now + 24 hours, encodes header and claims, signs, and concatenates. -/
def generateJWT (payload : AuthPayload) (secret : String) (now : Nat) : Token :=
  let jwtPayload : JWTClaims := { payload := payload, iat := now, exp := now + 24 * 60 * 60 }
  let encodedHeader := Seg.headerHS256
  let encodedPayload := Seg.claims jwtPayload
  { header := encodedHeader, payload := encodedPayload,
    signature := signHS256 secret encodedHeader encodedPayload }

/-- The exceptions verifyJWT can throw. -/
inductive VerifyError where
  | invalidSignature
  | expired
  | malformed
deriving DecidableEq

/-- atob + JSON.parse of a payload segment: succeeds exactly on an encoded
claims object, throws (none) on anything else. -/
def decodeClaims : Seg → Option JWTClaims
  | Seg.claims c => some c
  | _ => none

/-- verifyJWT (lines 135-150): recompute the signature over header.payload and
reject on mismatch, then decode the payload, then reject when the expiry claim
is strictly in the past. -/
def verifyJWT (token : Token) (secret : String) (now : Nat) : Except VerifyError JWTClaims :=
  let expectedSignature := signHS256 secret token.header token.payload
  if token.signature ≠ expectedSignature then Except.error VerifyError.invalidSignature
  else
    match decodeClaims token.payload with
    | none => Except.error VerifyError.malformed
    | some decodedPayload =>
      if decodedPayload.exp < now then Except.error VerifyError.expired
      else Except.ok decodedPayload

/-! ## Password hashing (lines 110-116)

bcryptjs is an external library, not code of this repository.  Hashing is
modeled as an injective one-way stand-in; the salt does not affect any verified
property, so the model is deterministic. -/

/-- Models bcrypt.hash with cost factor 10. -/
def hashPassword (password : String) : String :=
  "bcrypt-10-" ++ password

/-- Models bcrypt.compare: succeeds exactly on the password the stored hash was
derived from. -/
def verifyPassword (password hash : String) : Bool :=
  hash == hashPassword password

/-! ## Database rows (schema and column usage as in the handlers) -/

/-- Row of the tenants table. -/
structure TenantRow where
  id : Nat
  tenant_key : String
  company_name : String
  contact_email : String
  is_active : Bool
deriving DecidableEq

/-- Row of the users table. -/
structure UserRow where
  id : Nat
  tenant_id : Nat
  email : String
  password_hash : String
  first_name : String
  last_name : String
  role : String
  is_active : Bool
  last_login : Option Nat
deriving DecidableEq

/-- Row of the opportunities table. -/
structure OpportunityRow where
  id : Nat
  tenant_id : Nat
  name : String
  company_id : Option Nat
  type_ : String
  stage : String
  amount : Option ℚ
  probability : ℚ
  expected_revenue : ℚ
  close_date : Option String
  description : Option String
  owner_id : Nat
  created_at : Nat
  updated_at : Nat
deriving DecidableEq

/-- Row of the contacts table. -/
structure ContactRow where
  id : Nat
  tenant_id : Nat
  first_name : String
  last_name : String
  email : Option String
  phone : Option String
  title : Option String
  company_id : Option Nat
  contact_role : Option String
  is_decision_maker : Bool
  notes : Option String
deriving DecidableEq

/-- Row of the companies table. -/
structure CompanyRow where
  id : Nat
  tenant_id : Nat
  name : String
  type_ : String
  industry : Option String
  website : Option String
  naics_codes : Option String
  duns_number : Option String
  cage_code : Option String
deriving DecidableEq

/-- Row of the captures table. -/
structure CaptureRow where
  id : Nat
  tenant_id : Nat
  name : String
  customer_name : String
  capture_type : String
  current_phase : String
  pwin : Option ℚ
  contract_value : Option ℚ
  rfp_release_date : Option String
  proposal_due_date : Option String
  capture_manager_id : Nat
  created_at : Nat
deriving DecidableEq

/-- Row of the rate_limits table.  The window_start column holds an ISO-8601
timestamp in the source; ISO strings compare chronologically, so it is modeled
as milliseconds. -/
structure RateLimitRow where
  identifier : String
  endpoint : String
  count : Nat
  window_start : Nat
deriving DecidableEq

/-- Row of the activity_log table. -/
structure ActivityRow where
  tenant_id : Nat
  user_id : Nat
  activity_type : String
  entity_type : Option String
  entity_id : Option Nat
  description : String
deriving DecidableEq

/-- The D1 database: one list per table, in insertion (rowid) order, plus the
next fresh rowid per table with an AUTOINCREMENT id the handlers read back via
meta.last_row_id. -/
structure Database where
  tenants : List TenantRow
  users : List UserRow
  opportunities : List OpportunityRow
  contacts : List ContactRow
  companies : List CompanyRow
  captures : List CaptureRow
  rate_limits : List RateLimitRow
  activity_log : List ActivityRow
  nextOpportunityId : Nat
  nextContactId : Nat
  nextCompanyId : Nat
  nextCaptureId : Nat
deriving DecidableEq

/-- A database with no rows. -/
def emptyDb : Database :=
  { tenants := [], users := [], opportunities := [], contacts := [], companies := [],
    captures := [], rate_limits := [], activity_log := [],
    nextOpportunityId := 1, nextContactId := 1, nextCompanyId := 1, nextCaptureId := 1 }

/-! ## Rate limiting middleware (src/backend/src/index.ts lines 44-73) -/

/-- The default value of the limit parameter of rateLimit (line 44). -/
def rateLimitDefaultLimit : Nat := 100

/-- The INSERT ... ON CONFLICT(identifier, endpoint, window_start) DO UPDATE SET
count = count + 1 statement (lines 65-70), executed with window_start bound to
now.toISOString(). -/
def rlUpsert (rows : List RateLimitRow) (identifier endpoint : String) (nowMs : Nat) :
    List RateLimitRow :=
  if rows.any (fun r =>
      r.identifier == identifier && r.endpoint == endpoint && r.window_start == nowMs) then
    rows.map (fun r =>
      if r.identifier == identifier && r.endpoint == endpoint && r.window_start == nowMs then
        { r with count := r.count + 1 }
      else r)
  else
    rows ++ [{ identifier := identifier, endpoint := endpoint, count := 1, window_start := nowMs }]

/-- rateLimit (lines 44-73).  Returns whether the request is rejected with 429
(the handler then returns the 429 response) together with the updated
rate_limits table.  nowMs is Date.now(); windowStart is now minus 60000 ms. -/
def rateLimit (rows : List RateLimitRow) (identifier endpoint : String) (limit : Nat)
    (nowMs : Nat) : Bool × List RateLimitRow :=
  let windowStart := nowMs - 60000
  let rows1 := rows.filter (fun r => !(decide (r.window_start < windowStart)))
  let result := rows1.find? (fun r =>
    r.identifier == identifier && r.endpoint == endpoint && decide (windowStart ≤ r.window_start))
  match result with
  | some r =>
    if limit ≤ r.count then (true, rows1)
    else (false, rlUpsert rows1 identifier endpoint nowMs)
  | none => (false, rlUpsert rows1 identifier endpoint nowMs)

/-- Runs a sequence of requests through rateLimit, one per timestamp, threading
the rate_limits table; returns the list of limited flags (true = rejected 429)
and the final table. -/
def runRateLimit (rows : List RateLimitRow) (identifier endpoint : String) (limit : Nat) :
    List Nat → List Bool × List RateLimitRow
  | [] => ([], rows)
  | t :: ts =>
    let step := rateLimit rows identifier endpoint limit t
    let rest := runRateLimit step.2 identifier endpoint limit ts
    (step.1 :: rest.1, rest.2)

/-! ## Auth middleware (src/backend/src/index.ts lines 76-104) -/

/-- The worker environment bindings: the D1 database handle and the JWT secret.
The middleware receives the whole environment; what it actually reads is the
point of claim C10. -/
structure Env where
  DB : Database
  JWT_SECRET : String
deriving DecidableEq

/-- The Authorization header value: either Bearer followed by a token, or some
other string that does not start with Bearer. -/
inductive AuthHeaderVal where
  | bearer (token : Token)
  | nonBearer (content : String)
deriving DecidableEq

/-- Outcome of the middleware for one request. -/
inductive MiddlewareOutcome where
  | unauthorized (message : String)
  | proceed (user : AuthPayload)
  | publicRoute
deriving DecidableEq

/-- The JWT authentication middleware (lines 76-104): skip for paths containing
/auth/login or /auth/register; 401 Unauthorized when the header is missing or
not a Bearer header; verify the token and either 401 Invalid token or attach
the decoded identity to the request context and continue. -/
def authMiddleware (env : Env) (path : String) (authHeader : Option AuthHeaderVal)
    (nowSec : Nat) : MiddlewareOutcome :=
  if pathIncludes path "/auth/login" || pathIncludes path "/auth/register" then
    MiddlewareOutcome.publicRoute
  else
    match authHeader with
    | none => MiddlewareOutcome.unauthorized "Unauthorized"
    | some (AuthHeaderVal.nonBearer _) => MiddlewareOutcome.unauthorized "Unauthorized"
    | some (AuthHeaderVal.bearer token) =>
      match verifyJWT token env.JWT_SECRET nowSec with
      | Except.error _ => MiddlewareOutcome.unauthorized "Invalid token"
      | Except.ok payload =>
        MiddlewareOutcome.proceed
          { userId := payload.payload.userId, tenantId := payload.payload.tenantId,
            email := payload.payload.email, role := payload.payload.role }

/-! ## Handler plumbing -/

/-- Body of a JSON response: a value, an error object with a message, or the
JSON null that c.json(null) would produce. -/
inductive ApiBody (α : Type) where
  | ok (value : α)
  | err (message : String)
  | nullBody
deriving DecidableEq

/-- Result of running one handler: HTTP status, response body, and the database
after the handler ran. -/
structure HandlerOut (α : Type) where
  status : Nat
  body : ApiBody α
  db : Database
deriving DecidableEq

/-! ## Login handler (src/backend/src/index.ts lines 253-325) -/

/-- Request body of POST /api/auth/login. -/
structure LoginBody where
  email : String
  password : String
  tenantKey : String
deriving DecidableEq

/-- The user summary object returned with the token on a successful login. -/
structure LoginUserSummary where
  id : Nat
  email : String
  firstName : String
  lastName : String
  role : String
  tenantKey : String
deriving DecidableEq

/-- Successful login response body. -/
structure LoginSuccess where
  token : Token
  user : LoginUserSummary
deriving DecidableEq

/-- POST /api/auth/login (lines 253-325): rate limit by email with limit 10;
look up the tenant by key and reject unknown or inactive tenants; look up the
active user by (tenant, email); verify the password; on success update
last_login, issue a token, log the activity and return the token with a user
summary.  All three credential failures return the same generic 401. -/
def login (db : Database) (body : LoginBody) (secret : String) (nowMs : Nat) :
    HandlerOut LoginSuccess :=
  let rl := rateLimit db.rate_limits body.email "/api/auth/login" 10 nowMs
  let db0 : Database := { db with rate_limits := rl.2 }
  if rl.1 then { status := 429, body := ApiBody.err "Rate limit exceeded", db := db0 }
  else
    match db0.tenants.find? (fun t => t.tenant_key == body.tenantKey) with
    | none => { status := 401, body := ApiBody.err "Invalid credentials", db := db0 }
    | some tenant =>
      if !tenant.is_active then
        { status := 401, body := ApiBody.err "Invalid credentials", db := db0 }
      else
        match db0.users.find? (fun u =>
            u.tenant_id == tenant.id && u.email == body.email && u.is_active) with
        | none => { status := 401, body := ApiBody.err "Invalid credentials", db := db0 }
        | some user =>
          if !(verifyPassword body.password user.password_hash) then
            { status := 401, body := ApiBody.err "Invalid credentials", db := db0 }
          else
            let db1 : Database := { db0 with users := db0.users.map (fun u =>
              if u.id == user.id then { u with last_login := some nowMs } else u) }
            let token := generateJWT
              { userId := user.id, tenantId := tenant.id, email := user.email, role := user.role }
              secret (nowMs / 1000)
            let logRow : ActivityRow :=
              { tenant_id := tenant.id, user_id := user.id, activity_type := "login",
                entity_type := none, entity_id := none, description := "User logged in" }
            let db2 : Database := { db1 with activity_log := db1.activity_log ++ [logRow] }
            { status := 200,
              body := ApiBody.ok
                { token := token,
                  user := { id := user.id, email := user.email, firstName := user.first_name,
                            lastName := user.last_name, role := user.role,
                            tenantKey := body.tenantKey } },
              db := db2 }

/-! ## Opportunity handlers (src/backend/src/index.ts lines 331-458) -/

/-- One row of the GET /api/opportunities result: the opportunity columns plus
the LEFT JOINed company_name and owner_name (both joins also match on
tenant_id). -/
structure OppListItem where
  opp : OpportunityRow
  company_name : Option String
  owner_name : Option String
deriving DecidableEq

/-- GET /api/opportunities (lines 331-367): WHERE o.tenant_id = the tenant id of
the verified token, optional stage and ownerId filters from the query string
(empty strings are falsy and ignored), LEFT JOIN companies and users on id and
tenant_id, ORDER BY created_at DESC. -/
def getOpportunities (db : Database) (user : AuthPayload) (stage : Option String)
    (ownerId : Option Nat) : List OppListItem :=
  sortBy (fun a b => decide (b.opp.created_at ≤ a.opp.created_at))
    ((db.opportunities.filter (fun o =>
        o.tenant_id == user.tenantId &&
        (match stage with
         | some s => s == "" || o.stage == s
         | none => true) &&
        (match ownerId with
         | some oid => o.owner_id == oid
         | none => true))).map (fun o =>
      { opp := o,
        company_name := (db.companies.find? (fun c =>
          o.company_id == some c.id && o.tenant_id == c.tenant_id)).map (fun c => c.name),
        owner_name := (db.users.find? (fun u =>
          o.owner_id == u.id && o.tenant_id == u.tenant_id)).map (fun u =>
            u.first_name ++ " " ++ u.last_name) }))

/-- Request body of POST /api/opportunities.  A request body is arbitrary
client-supplied JSON; the tenantId field records that a client may send a
tenant identifier of its own -- the handler never reads it. -/
structure OppCreateBody where
  name : String
  companyId : Option Nat
  type_ : String
  stage : Option String
  amount : Option ℚ
  probability : Option ℚ
  closeDate : Option String
  description : Option String
  tenantId : Option Nat
deriving DecidableEq

/-- The opportunity row the POST /api/opportunities INSERT persists (lines
375-394): tenant_id and owner_id come from the verified token, never from the
body; expected_revenue = (amount or-or 0) * (probability or-or 0) / 100. -/
def newOpportunityRow (user : AuthPayload) (body : OppCreateBody) (oid : Nat) (now : Nat) :
    OpportunityRow :=
  { id := oid,
    tenant_id := user.tenantId,
    name := body.name,
    company_id := jsNatOrNull body.companyId,
    type_ := body.type_,
    stage := jsOrStr body.stage "prospecting",
    amount := jsNumOrNull body.amount,
    probability := jsOrNum body.probability 0,
    expected_revenue := jsOrNum body.amount 0 * jsOrNum body.probability 0 / 100,
    close_date := jsStrOrNull body.closeDate,
    description := jsStrOrNull body.description,
    owner_id := user.userId,
    created_at := now,
    updated_at := now }

/-- POST /api/opportunities (lines 369-411): compute expected_revenue, INSERT,
append the activity-log entry, re-SELECT the inserted row by last_row_id and
return it with 201. -/
def createOpportunity (db : Database) (user : AuthPayload) (body : OppCreateBody) (now : Nat) :
    HandlerOut OpportunityRow :=
  let oid := db.nextOpportunityId
  let row := newOpportunityRow user body oid now
  let db1 : Database :=
    { db with opportunities := db.opportunities ++ [row], nextOpportunityId := oid + 1 }
  let logRow : ActivityRow :=
    { tenant_id := user.tenantId, user_id := user.userId, activity_type := "create",
      entity_type := some "opportunity", entity_id := some oid,
      description := "Created: " ++ body.name }
  let db2 : Database := { db1 with activity_log := db1.activity_log ++ [logRow] }
  match db2.opportunities.find? (fun o => o.id == oid) with
  | some o => { status := 201, body := ApiBody.ok o, db := db2 }
  | none => { status := 201, body := ApiBody.nullBody, db := db2 }

/-- Request body of PUT /api/opportunities/:id (per-field update; tenantId again
records a client-supplied tenant identifier the handler never reads). -/
structure OppUpdateBody where
  name : Option String
  stage : Option String
  amount : Option ℚ
  probability : Option ℚ
  tenantId : Option Nat
deriving DecidableEq

/-- The SET clause PUT /api/opportunities/:id builds (lines 429-443): name and
stage only when truthy; amount when not undefined; when probability is not
undefined, probability together with
expected_revenue = (body amount or-or 0) * probability / 100 -- note the source
reads the amount from the request body, not from the stored row; updated_at
always. -/
def applyOpportunityUpdate (body : OppUpdateBody) (now : Nat) (o : OpportunityRow) :
    OpportunityRow :=
  let o1 := match body.name with
    | some s => if s = "" then o else { o with name := s }
    | none => o
  let o2 := match body.stage with
    | some s => if s = "" then o1 else { o1 with stage := s }
    | none => o1
  let o3 := match body.amount with
    | some a => { o2 with amount := some a }
    | none => o2
  let o4 := match body.probability with
    | some p => { o3 with probability := p,
                          expected_revenue := jsOrNum body.amount 0 * p / 100 }
    | none => o3
  { o4 with updated_at := now }

/-- PUT /api/opportunities/:id (lines 413-458): SELECT the row by id and the
tenant id of the verified token and answer 404 Opportunity not found when
absent (whether the id does not exist at all or belongs to another tenant);
otherwise UPDATE ... WHERE id = ? AND tenant_id = ? and return the re-SELECTed
row. -/
def updateOpportunity (db : Database) (user : AuthPayload) (id : Nat) (body : OppUpdateBody)
    (now : Nat) : HandlerOut OpportunityRow :=
  match db.opportunities.find? (fun o => o.id == id && o.tenant_id == user.tenantId) with
  | none => { status := 404, body := ApiBody.err "Opportunity not found", db := db }
  | some _ =>
    let db1 : Database := { db with opportunities := db.opportunities.map (fun o =>
      if o.id == id && o.tenant_id == user.tenantId then applyOpportunityUpdate body now o
      else o) }
    match db1.opportunities.find? (fun o => o.id == id) with
    | some o => { status := 200, body := ApiBody.ok o, db := db1 }
    | none => { status := 200, body := ApiBody.nullBody, db := db1 }

/-! ## Contact handlers (src/backend/src/index.ts lines 464-515) -/

/-- One row of the GET /api/contacts result. -/
structure ContactListItem where
  contact : ContactRow
  company_name : Option String
deriving DecidableEq

/-- Comparator for ORDER BY last_name, first_name. -/
def contactOrder (a b : ContactListItem) : Bool :=
  match compare a.contact.last_name b.contact.last_name with
  | Ordering.lt => true
  | Ordering.eq => !(compare a.contact.first_name b.contact.first_name == Ordering.gt)
  | Ordering.gt => false

/-- GET /api/contacts (lines 464-481): WHERE c.tenant_id = the tenant id of the
verified token, LEFT JOIN companies on id and tenant_id, ORDER BY last_name,
first_name. -/
def getContacts (db : Database) (user : AuthPayload) : List ContactListItem :=
  sortBy contactOrder
    ((db.contacts.filter (fun c => c.tenant_id == user.tenantId)).map (fun c =>
      { contact := c,
        company_name := (db.companies.find? (fun co =>
          c.company_id == some co.id && c.tenant_id == co.tenant_id)).map (fun co => co.name) }))

/-- Request body of POST /api/contacts (tenantId records a client-supplied
tenant identifier the handler never reads). -/
structure ContactCreateBody where
  firstName : String
  lastName : String
  email : Option String
  phone : Option String
  title : Option String
  companyId : Option Nat
  contactRole : Option String
  isDecisionMaker : Bool
  notes : Option String
  tenantId : Option Nat
deriving DecidableEq

/-- The contact row the POST /api/contacts INSERT persists (lines 489-505):
tenant_id comes from the verified token, never from the body. -/
def newContactRow (user : AuthPayload) (body : ContactCreateBody) (cid : Nat) : ContactRow :=
  { id := cid,
    tenant_id := user.tenantId,
    first_name := body.firstName,
    last_name := body.lastName,
    email := jsStrOrNull body.email,
    phone := jsStrOrNull body.phone,
    title := jsStrOrNull body.title,
    company_id := jsNatOrNull body.companyId,
    contact_role := jsStrOrNull body.contactRole,
    is_decision_maker := body.isDecisionMaker,
    notes := jsStrOrNull body.notes }

/-- POST /api/contacts (lines 483-515): INSERT, re-SELECT by last_row_id,
return 201. -/
def createContact (db : Database) (user : AuthPayload) (body : ContactCreateBody) :
    HandlerOut ContactRow :=
  let cid := db.nextContactId
  let row := newContactRow user body cid
  let db1 : Database := { db with contacts := db.contacts ++ [row], nextContactId := cid + 1 }
  match db1.contacts.find? (fun c => c.id == cid) with
  | some c => { status := 201, body := ApiBody.ok c, db := db1 }
  | none => { status := 201, body := ApiBody.nullBody, db := db1 }

/-! ## Company handlers (src/backend/src/index.ts lines 521-565) -/

/-- GET /api/companies (lines 521-534): WHERE tenant_id = the tenant id of the
verified token, ORDER BY name. -/
def getCompanies (db : Database) (user : AuthPayload) : List CompanyRow :=
  sortBy (fun a b => !(compare a.name b.name == Ordering.gt))
    (db.companies.filter (fun c => c.tenant_id == user.tenantId))

/-- Request body of POST /api/companies (tenantId records a client-supplied
tenant identifier the handler never reads; naicsCodes stands for the already
JSON-stringified array, since data.naicsCodes is truthy exactly when
present). -/
structure CompanyCreateBody where
  name : String
  type_ : Option String
  industry : Option String
  website : Option String
  naicsCodes : Option String
  dunsNumber : Option String
  cageCode : Option String
  tenantId : Option Nat
deriving DecidableEq

/-- The company row the POST /api/companies INSERT persists (lines 542-555):
tenant_id comes from the verified token, never from the body. -/
def newCompanyRow (user : AuthPayload) (body : CompanyCreateBody) (cid : Nat) : CompanyRow :=
  { id := cid,
    tenant_id := user.tenantId,
    name := body.name,
    type_ := jsOrStr body.type_ "customer",
    industry := jsStrOrNull body.industry,
    website := jsStrOrNull body.website,
    naics_codes := body.naicsCodes,
    duns_number := jsStrOrNull body.dunsNumber,
    cage_code := jsStrOrNull body.cageCode }

/-- POST /api/companies (lines 536-565): INSERT, re-SELECT by last_row_id,
return 201. -/
def createCompany (db : Database) (user : AuthPayload) (body : CompanyCreateBody) :
    HandlerOut CompanyRow :=
  let cid := db.nextCompanyId
  let row := newCompanyRow user body cid
  let db1 : Database := { db with companies := db.companies ++ [row], nextCompanyId := cid + 1 }
  match db1.companies.find? (fun c => c.id == cid) with
  | some c => { status := 201, body := ApiBody.ok c, db := db1 }
  | none => { status := 201, body := ApiBody.nullBody, db := db1 }

/-! ## Capture handlers (src/backend/src/index.ts lines 571-622) -/

/-- One row of the GET /api/captures result.  Note that the source joins users
on capture_manager_id = u.id only, without a tenant_id condition. -/
structure CaptureListItem where
  capture : CaptureRow
  capture_manager_name : Option String
deriving DecidableEq

/-- GET /api/captures (lines 571-588): WHERE c.tenant_id = the tenant id of the
verified token, LEFT JOIN users on capture_manager_id = u.id, ORDER BY
created_at DESC. -/
def getCaptures (db : Database) (user : AuthPayload) : List CaptureListItem :=
  sortBy (fun a b => decide (b.capture.created_at ≤ a.capture.created_at))
    ((db.captures.filter (fun c => c.tenant_id == user.tenantId)).map (fun c =>
      { capture := c,
        capture_manager_name := (db.users.find? (fun u =>
          c.capture_manager_id == u.id)).map (fun u =>
            u.first_name ++ " " ++ u.last_name) }))

/-- Request body of POST /api/captures (tenantId records a client-supplied
tenant identifier the handler never reads). -/
structure CaptureCreateBody where
  name : String
  customerName : String
  captureType : String
  currentPhase : Option String
  pwin : Option ℚ
  contractValue : Option ℚ
  rfpReleaseDate : Option String
  proposalDueDate : Option String
  tenantId : Option Nat
deriving DecidableEq

/-- The capture row the POST /api/captures INSERT persists (lines 596-612):
tenant_id and capture_manager_id come from the verified token, never from the
body. -/
def newCaptureRow (user : AuthPayload) (body : CaptureCreateBody) (cid : Nat) (now : Nat) :
    CaptureRow :=
  { id := cid,
    tenant_id := user.tenantId,
    name := body.name,
    customer_name := body.customerName,
    capture_type := body.captureType,
    current_phase := jsOrStr body.currentPhase "phase0_long_range",
    pwin := jsNumOrNull body.pwin,
    contract_value := jsNumOrNull body.contractValue,
    rfp_release_date := jsStrOrNull body.rfpReleaseDate,
    proposal_due_date := jsStrOrNull body.proposalDueDate,
    capture_manager_id := user.userId,
    created_at := now }

/-- POST /api/captures (lines 590-622): INSERT, re-SELECT by last_row_id,
return 201. -/
def createCapture (db : Database) (user : AuthPayload) (body : CaptureCreateBody) (now : Nat) :
    HandlerOut CaptureRow :=
  let cid := db.nextCaptureId
  let row := newCaptureRow user body cid now
  let db1 : Database := { db with captures := db.captures ++ [row], nextCaptureId := cid + 1 }
  match db1.captures.find? (fun c => c.id == cid) with
  | some c => { status := 201, body := ApiBody.ok c, db := db1 }
  | none => { status := 201, body := ApiBody.nullBody, db := db1 }

/-! ## Dashboard handlers (src/backend/src/index.ts lines 628-689) -/

/-- Sum of a list of rationals (SQL SUM with COALESCE to 0; NULL amounts
contribute 0). -/
def sumQ (l : List ℚ) : ℚ := l.foldr (fun x acc => x + acc) 0

/-- Response body of GET /api/dashboard/kpis. -/
structure Kpis where
  totalRevenue : ℚ
  openOpportunities : Nat
  winRate : ℚ
  pipelineValue : ℚ
deriving DecidableEq

/-- GET /api/dashboard/kpis (lines 628-671): four aggregates over
opportunities, each filtered by the tenant id of the verified token; the win
rate divides by the number of closed opportunities and falls back to 0 when
that count is zero (NULLIF plus the or-or 0 in the response). -/
def dashboardKpis (db : Database) (user : AuthPayload) : Kpis :=
  let revenue := sumQ ((db.opportunities.filter (fun o =>
    o.tenant_id == user.tenantId && o.stage == "closed_won")).map (fun o => o.amount.getD 0))
  let openCount := (db.opportunities.filter (fun o =>
    o.tenant_id == user.tenantId &&
      !(o.stage == "closed_won" || o.stage == "closed_lost"))).length
  let wonCount := (db.opportunities.filter (fun o =>
    o.tenant_id == user.tenantId && o.stage == "closed_won")).length
  let closedCount := (db.opportunities.filter (fun o =>
    o.tenant_id == user.tenantId &&
      (o.stage == "closed_won" || o.stage == "closed_lost"))).length
  let pipeline := sumQ ((db.opportunities.filter (fun o =>
    o.tenant_id == user.tenantId &&
      !(o.stage == "closed_won" || o.stage == "closed_lost"))).map
        (fun o => o.expected_revenue))
  { totalRevenue := revenue,
    openOpportunities := openCount,
    winRate := if closedCount = 0 then 0 else (wonCount : ℚ) * 100 / (closedCount : ℚ),
    pipelineValue := pipeline }

/-- One group of the GET /api/dashboard/pipeline-by-stage result. -/
structure StageAgg where
  stage : String
  count : Nat
  value : ℚ
deriving DecidableEq

/-- GET /api/dashboard/pipeline-by-stage (lines 673-689): open opportunities of
the tenant of the verified token, grouped by stage with count and summed
amount. -/
def pipelineByStage (db : Database) (user : AuthPayload) : List StageAgg :=
  let rows := db.opportunities.filter (fun o =>
    o.tenant_id == user.tenantId && !(o.stage == "closed_won" || o.stage == "closed_lost"))
  ((rows.map (fun o => o.stage)).dedup).map (fun s =>
    { stage := s,
      count := (rows.filter (fun o => o.stage == s)).length,
      value := sumQ ((rows.filter (fun o => o.stage == s)).map (fun o => o.amount.getD 0)) })

/-! ## The route table and its rate-limit calls -/

/-- The routes the backend registers (src/backend/src/index.ts). -/
inductive Route where
  | register
  | login
  | getOpportunities
  | postOpportunities
  | putOpportunity
  | getContacts
  | postContacts
  | getCompanies
  | postCompanies
  | getCaptures
  | postCaptures
  | dashboardKpis
  | pipelineByStage
  | health
deriving DecidableEq

/-- The rateLimit call each route handler makes: the limit the handler passes,
or none when the handler body contains no rateLimit call.  Transcribed from the
handlers: only POST /api/auth/register calls rateLimit (limit 5, line 205) and
POST /api/auth/login calls rateLimit (limit 10, line 258); no other handler
invokes it. -/
def routeRateLimitCall : Route → Option Nat
  | Route.register => some 5
  | Route.login => some 10
  | _ => none

/-! ## Concrete fixtures shared by the witnesses -/

/-- A demo tenant row. -/
def demoTenant : TenantRow :=
  { id := 1, tenant_key := "demo", company_name := "Demo Company",
    contact_email := "demo@example.com", is_active := true }

/-- A demo user row of tenant 1. -/
def demoUser : UserRow :=
  { id := 1, tenant_id := 1, email := "demo@example.com",
    password_hash := hashPassword "password123", first_name := "Demo", last_name := "User",
    role := "admin", is_active := true, last_login := none }

/-- The verified identity of the demo user (tenant 1). -/
def demoAuth : AuthPayload :=
  { userId := 1, tenantId := 1, email := "demo@example.com", role := "admin" }

/-- A verified identity belonging to a different tenant (tenant 2). -/
def otherAuth : AuthPayload :=
  { userId := 2, tenantId := 2, email := "other@example.com", role := "admin" }

/-! ## Shared lemmas about token verification -/

/-- Verifying a freshly issued token with the same secret at or before its
expiry returns the signed claims. -/
theorem verifyJWT_generateJWT_ok (payload : AuthPayload) (secret : String)
    (issuedAt now : Nat) (h : now ≤ issuedAt + 24 * 60 * 60) :
    verifyJWT (generateJWT payload secret issuedAt) secret now
      = Except.ok { payload := payload, iat := issuedAt, exp := issuedAt + 24 * 60 * 60 } := by
  simp [verifyJWT, generateJWT, signHS256, decodeClaims, Nat.not_lt.mpr h]

/-- A token whose signature segment does not match the recomputed signature is
rejected with InvalidSignature. -/
theorem verifyJWT_sig_mismatch (token : Token) (secret : String) (now : Nat)
    (h : token.signature ≠ signHS256 secret token.header token.payload) :
    verifyJWT token secret now = Except.error VerifyError.invalidSignature := by
  simp only [verifyJWT]
  rw [if_pos h]

/-- C5: for every valid (user, tenant) payload and secret, a token produced by
generateJWT and verified with the same secret within 24 hours returns the
original payload (as the payload fields of the signed claims), and verification
strictly after the 24-hour expiry fails with Expired. -/
theorem token_roundtrip_and_expiry (payload : AuthPayload) (secret : String)
    (issuedAt now : Nat) :
    (now ≤ issuedAt + 24 * 60 * 60 →
      verifyJWT (generateJWT payload secret issuedAt) secret now
        = Except.ok { payload := payload, iat := issuedAt, exp := issuedAt + 24 * 60 * 60 }) ∧
    (issuedAt + 24 * 60 * 60 < now →
      verifyJWT (generateJWT payload secret issuedAt) secret now
        = Except.error VerifyError.expired) := by
  constructor
  · exact verifyJWT_generateJWT_ok payload secret issuedAt now
  · intro h
    simp [verifyJWT, generateJWT, signHS256, decodeClaims, h]

/-- Witness for C5 at a concrete payload, secret and times: verification at the
24-hour mark succeeds with the original payload, one second conceptually later
(here at 90000 s) it fails with Expired. -/
theorem token_roundtrip_and_expiry_witness :
    verifyJWT (generateJWT demoAuth "secret" 1000) "secret" 86400
      = Except.ok { payload := demoAuth, iat := 1000, exp := 1000 + 24 * 60 * 60 } ∧
    verifyJWT (generateJWT demoAuth "secret" 1000) "secret" 90000
      = Except.error VerifyError.expired :=
  ⟨(token_roundtrip_and_expiry demoAuth "secret" 1000 86400).1 (by decide),
   (token_roundtrip_and_expiry demoAuth "secret" 1000 90000).2 (by decide)⟩

/-- C6: for every issued token, replacing its payload segment or its signature
segment by any different segment string makes verification fail with
InvalidSignature (segment strings are modeled symbolically, so a change of any
character yields a different segment value). -/
theorem token_tamper_invalid_signature (payload : AuthPayload) (secret : String)
    (issuedAt now : Nat) :
    (∀ seg : Seg, seg ≠ (generateJWT payload secret issuedAt).payload →
      verifyJWT { generateJWT payload secret issuedAt with payload := seg } secret now
        = Except.error VerifyError.invalidSignature) ∧
    (∀ seg : Seg, seg ≠ (generateJWT payload secret issuedAt).signature →
      verifyJWT { generateJWT payload secret issuedAt with signature := seg } secret now
        = Except.error VerifyError.invalidSignature) := by
  constructor
  · intro seg h
    apply verifyJWT_sig_mismatch
    intro hc
    apply h
    have hmac : Seg.mac secret Seg.headerHS256
          (Seg.claims { payload := payload, iat := issuedAt, exp := issuedAt + 24 * 60 * 60 })
        = Seg.mac secret Seg.headerHS256 seg := hc
    injection hmac with h1 h2 h3
    exact h3.symm
  · intro seg h
    apply verifyJWT_sig_mismatch
    exact h

/-- Witness for C6: a concrete token with a tampered payload segment and one
with a tampered signature segment are both rejected with InvalidSignature. -/
theorem token_tamper_invalid_signature_witness :
    verifyJWT { generateJWT demoAuth "secret" 1000 with payload := Seg.raw "tampered-payload" }
        "secret" 1000 = Except.error VerifyError.invalidSignature ∧
    verifyJWT { generateJWT demoAuth "secret" 1000 with signature := Seg.raw "tampered-sig" }
        "secret" 1000 = Except.error VerifyError.invalidSignature :=
  ⟨(token_tamper_invalid_signature demoAuth "secret" 1000 1000).1
      (Seg.raw "tampered-payload") (by decide),
   (token_tamper_invalid_signature demoAuth "secret" 1000 1000).2
      (Seg.raw "tampered-sig") (by decide)⟩

/-- C10: the accept/reject decision of the auth middleware and the identity it
attaches depend only on the bearer token, the JWT secret and the current time,
never on the database binding of the environment; in particular a valid
unexpired token is accepted with the same identity whatever the database
contains, for its full 24-hour lifetime. -/
theorem auth_middleware_db_independent (d1 d2 : Database) (secret path : String)
    (header : Option AuthHeaderVal) (nowSec : Nat) :
    authMiddleware { DB := d1, JWT_SECRET := secret } path header nowSec
      = authMiddleware { DB := d2, JWT_SECRET := secret } path header nowSec ∧
    (∀ (payload : AuthPayload) (issuedAt : Nat) (d : Database),
      nowSec ≤ issuedAt + 24 * 60 * 60 →
      pathIncludes path "/auth/login" = false →
      pathIncludes path "/auth/register" = false →
      authMiddleware { DB := d, JWT_SECRET := secret } path
          (some (AuthHeaderVal.bearer (generateJWT payload secret issuedAt))) nowSec
        = MiddlewareOutcome.proceed payload) := by
  constructor
  · rfl
  · intro payload issuedAt d hnow hp1 hp2
    have hv := verifyJWT_generateJWT_ok payload secret issuedAt nowSec hnow
    simp [authMiddleware, hp1, hp2, hv]

/-- Witness for C10: the same bearer token at the last second of its lifetime
is accepted with the same identity against a database that still holds the
active demo user and against one where the user and tenant have been
deactivated. -/
theorem auth_middleware_db_independent_witness :
    authMiddleware
        { DB := { emptyDb with tenants := [demoTenant], users := [demoUser] },
          JWT_SECRET := "secret" } "/api/opportunities"
        (some (AuthHeaderVal.bearer (generateJWT demoAuth "secret" 1000))) 86400
      = authMiddleware
        { DB := { emptyDb with tenants := [{ demoTenant with is_active := false }],
                               users := [{ demoUser with is_active := false }] },
          JWT_SECRET := "secret" } "/api/opportunities"
        (some (AuthHeaderVal.bearer (generateJWT demoAuth "secret" 1000))) 86400 ∧
    authMiddleware
        { DB := { emptyDb with tenants := [{ demoTenant with is_active := false }],
                               users := [{ demoUser with is_active := false }] },
          JWT_SECRET := "secret" } "/api/opportunities"
        (some (AuthHeaderVal.bearer (generateJWT demoAuth "secret" 1000))) 86400
      = MiddlewareOutcome.proceed demoAuth := by
  obtain ⟨h1, h2⟩ := auth_middleware_db_independent
    { emptyDb with tenants := [demoTenant], users := [demoUser] }
    { emptyDb with tenants := [{ demoTenant with is_active := false }],
                   users := [{ demoUser with is_active := false }] }
    "secret" "/api/opportunities"
    (some (AuthHeaderVal.bearer (generateJWT demoAuth "secret" 1000))) 86400
  exact ⟨h1, h2 demoAuth 1000
    { emptyDb with tenants := [{ demoTenant with is_active := false }],
                   users := [{ demoUser with is_active := false }] }
    (by decide) (by decide) (by decide)⟩

/-! ## C2: the rate limiter never aggregates counts across distinct request
timestamps -/

/-- C2 (code-bug exhibit): six rapid requests from the same identifier to the
same endpoint, inside one 60-second window but at six distinct millisecond
timestamps, are all allowed by rateLimit with limit 5 -- the 6th is not
rejected.  The final rate_limits table shows why: the upsert binds
window_start to the current time of each request instead of the truncated
window start, so every request inserts a fresh row with count 1 and the read
never sees a count of 5. -/
theorem rate_limit_six_rapid_requests_all_allowed :
    (runRateLimit [] "alice" "/api/auth/register" 5
        [100000, 100010, 100020, 100030, 100040, 100050]).1
      = [false, false, false, false, false, false] ∧
    (runRateLimit [] "alice" "/api/auth/register" 5
        [100000, 100010, 100020, 100030, 100040, 100050]).2
      = [{ identifier := "alice", endpoint := "/api/auth/register", count := 1, window_start := 100000 },
         { identifier := "alice", endpoint := "/api/auth/register", count := 1, window_start := 100010 },
         { identifier := "alice", endpoint := "/api/auth/register", count := 1, window_start := 100020 },
         { identifier := "alice", endpoint := "/api/auth/register", count := 1, window_start := 100030 },
         { identifier := "alice", endpoint := "/api/auth/register", count := 1, window_start := 100040 },
         { identifier := "alice", endpoint := "/api/auth/register", count := 1, window_start := 100050 }] := by
  decide

/-! ## C4: which routes call the rate limiter -/

/-- C4 counterexample: GET /api/opportunities -- general API traffic -- makes
no rateLimit call at all, so it is not guarded by the rate limiter; hence not
every endpoint class is guarded. -/
theorem rate_limit_coverage_counterexample :
    routeRateLimitCall Route.getOpportunities = none ∧
    ¬ ∀ r : Route, (routeRateLimitCall r).isSome = true := by
  constructor
  · rfl
  · intro hall
    have h := hall Route.getOpportunities
    simp [routeRateLimitCall] at h

/-- C4 amended: only the authentication endpoints invoke the rate limiter --
register with limit 5 and login with limit 10, both stricter than the default
limit of 100 -- and no other route makes a rateLimit call. -/
theorem rate_limit_only_auth_routes :
    routeRateLimitCall Route.register = some 5 ∧
    routeRateLimitCall Route.login = some 10 ∧
    5 ≤ rateLimitDefaultLimit ∧ 10 ≤ rateLimitDefaultLimit ∧
    rateLimitDefaultLimit = 100 ∧
    ∀ r : Route, (routeRateLimitCall r).isSome = true →
      r = Route.register ∨ r = Route.login := by
  refine ⟨rfl, rfl, by decide, by decide, rfl, ?_⟩
  intro r h
  cases r <;> simp_all [routeRateLimitCall]

/-- Witness for the amended C4 at the register route. -/
theorem rate_limit_only_auth_routes_witness :
    (routeRateLimitCall Route.register).isSome = true ∧
    (Route.register = Route.register ∨ Route.register = Route.login) :=
  ⟨by decide, rate_limit_only_auth_routes.2.2.2.2.2 Route.register (by decide)⟩

/-! ## C3: the update handler and the derived expected_revenue field -/

/-- An opportunity whose stored fields satisfy the derived-field invariant:
expected_revenue = amount x probability / 100 = 1000 x 50 / 100 = 500. -/
def staleRevOpp : OpportunityRow :=
  { id := 1, tenant_id := 1, name := "Federal Cloud Migration", company_id := none,
    type_ := "new_business", stage := "qualification", amount := some 1000, probability := 50,
    expected_revenue := 500, close_date := none, description := none, owner_id := 1,
    created_at := 0, updated_at := 0 }

/-- A database holding only staleRevOpp (tenant 1). -/
def staleRevDb : Database :=
  { emptyDb with opportunities := [staleRevOpp], nextOpportunityId := 2 }

/-- C3 (code-bug exhibit): an update of only the amount (1000 to 2000)
leaves expected_revenue at the stale 500, which no longer equals the stored
amount x probability / 100 = 1000; and an update of only the
probability recomputes expected_revenue from the absent body amount
((undefined or-or 0) = 0), yielding 0 instead of the
stored-amount x probability / 100 = 800. -/
theorem opportunity_update_stale_expected_revenue :
    ((updateOpportunity staleRevDb demoAuth 1
        { name := none, stage := none, amount := some 2000, probability := none,
          tenantId := none } 7).body
      = ApiBody.ok { staleRevOpp with amount := some 2000, updated_at := 7 }) ∧
    ({ staleRevOpp with amount := some 2000, updated_at := 7 } : OpportunityRow).expected_revenue
      ≠ (2000 : ℚ) * 50 / 100 ∧
    ((updateOpportunity staleRevDb demoAuth 1
        { name := none, stage := none, amount := none, probability := some 80,
          tenantId := none } 7).body
      = ApiBody.ok { staleRevOpp with probability := 80, expected_revenue := jsOrNum none 0 * 80 / 100, updated_at := 7 }) ∧
    (jsOrNum none 0 * 80 / 100 : ℚ) = 0 ∧
    (staleRevOpp.amount.getD 0 * (80 : ℚ) / 100) = 800 ∧ (800 : ℚ) ≠ 0 := by
  refine ⟨by decide, ?_, rfl, ?_, ?_, by norm_num⟩
  · show (500 : ℚ) ≠ 2000 * 50 / 100
    norm_num
  · norm_num [jsOrNum]
  · norm_num [staleRevOpp]

/-! ## Shared lemmas for the create and update handlers -/

/-- JavaScript (some a or-or 0) is a itself, whether or not a is 0. -/
theorem jsOrNum_some_zero (a : ℚ) : jsOrNum (some a) 0 = a := by
  by_cases h : a = 0 <;> simp [jsOrNum, h]

/-- A find? over a list extended with one final element that is the only one
satisfying the predicate returns that element. -/
theorem find?_append_last {α : Type} (p : α → Bool) (l : List α) (a : α)
    (hl : ∀ x ∈ l, p x = false) (ha : p a = true) :
    (l ++ [a]).find? p = some a := by
  induction l with
  | nil => simp [List.find?, ha]
  | cons b bs ih =>
    have hb := hl b (List.mem_cons_self b bs)
    simp only [List.cons_append, List.find?_cons, hb]
    exact ih fun x hx => hl x (List.mem_cons_of_mem b hx)

/-! ## C7: cross-tenant or missing opportunity update -/

/-- C7: updating an opportunity whose id does not exist under the tenant of the caller
-- whether the row is absent altogether or belongs to a different
tenant -- returns the same 404 Opportunity not found response and leaves the
database unchanged.  Both failure cases produce the literally identical
result value, so nothing reveals whether the record exists in another
tenant. -/
theorem update_cross_tenant_not_found (db : Database) (user : AuthPayload) (id : Nat)
    (body : OppUpdateBody) (now : Nat)
    (h : ∀ o ∈ db.opportunities, ¬(o.id = id ∧ o.tenant_id = user.tenantId)) :
    updateOpportunity db user id body now
      = { status := 404, body := ApiBody.err "Opportunity not found", db := db } := by
  have hfind : db.opportunities.find?
      (fun o => o.id == id && o.tenant_id == user.tenantId) = none := by
    rw [List.find?_eq_none]
    intro o ho
    simp only [Bool.and_eq_true, beq_iff_eq]
    exact h o ho
  simp [updateOpportunity, hfind]

/-- Witness for C7: the same concrete database answers the same 404 response
both for an id that belongs to another tenant (id 1 is tenant 1, the caller is
tenant 2) and for an id that exists nowhere (id 99), with no mutation. -/
theorem update_cross_tenant_not_found_witness :
    updateOpportunity staleRevDb otherAuth 1
        { name := none, stage := none, amount := none, probability := none, tenantId := none } 3
      = { status := 404, body := ApiBody.err "Opportunity not found", db := staleRevDb } ∧
    updateOpportunity staleRevDb demoAuth 99
        { name := none, stage := none, amount := none, probability := none, tenantId := none } 3
      = { status := 404, body := ApiBody.err "Opportunity not found", db := staleRevDb } :=
  ⟨update_cross_tenant_not_found staleRevDb otherAuth 1 _ 3 (by decide),
   update_cross_tenant_not_found staleRevDb demoAuth 99 _ 3 (by decide)⟩

/-! ## C9: opportunity creation and the derived expected_revenue field -/

/-- The create request of the demo scenario: amount 2500000, probability 60. -/
def demoOppBody : OppCreateBody :=
  { name := "Federal Cloud Migration", companyId := none, type_ := "new_business",
    stage := some "qualification", amount := some 2500000, probability := some 60,
    closeDate := none, description := none, tenantId := none }

/-- C9: creating an opportunity with a supplied amount and probability persists
a row with expected_revenue = amount x probability / 100 computed before the
INSERT, and returns that freshly read persisted row with 201; at the demo
scenario input (amount 2500000, probability 60) the derived field is
1500000. -/
theorem create_opportunity_expected_revenue :
    (∀ (db : Database) (user : AuthPayload) (body : OppCreateBody) (now : Nat) (a p : ℚ),
      body.amount = some a → body.probability = some p →
      (∀ o ∈ db.opportunities, o.id ≠ db.nextOpportunityId) →
      (createOpportunity db user body now).status = 201 ∧
      (createOpportunity db user body now).body
        = ApiBody.ok (newOpportunityRow user body db.nextOpportunityId now) ∧
      newOpportunityRow user body db.nextOpportunityId now
        ∈ (createOpportunity db user body now).db.opportunities ∧
      (newOpportunityRow user body db.nextOpportunityId now).expected_revenue = a * p / 100) ∧
    (newOpportunityRow demoAuth demoOppBody 1 0).expected_revenue = 1500000 := by
  constructor
  · intro db user body now a p ha hp hfresh
    have hfind : ((db.opportunities ++ [newOpportunityRow user body db.nextOpportunityId now]).find?
        (fun o => o.id == db.nextOpportunityId))
        = some (newOpportunityRow user body db.nextOpportunityId now) := by
      apply find?_append_last
      · intro x hx
        simpa using hfresh x hx
      · simp [newOpportunityRow]
    refine ⟨?_, ?_, ?_, ?_⟩
    · simp [createOpportunity, hfind]
    · simp [createOpportunity, hfind]
    · simp [createOpportunity, hfind]
    · simp [newOpportunityRow, ha, hp, jsOrNum_some_zero]
  · show jsOrNum demoOppBody.amount 0 * jsOrNum demoOppBody.probability 0 / 100 = 1500000
    norm_num [demoOppBody, jsOrNum]

/-- Witness for C9: creating the demo opportunity in the empty database
returns 201 with the freshly read row, whose expected_revenue is 1500000. -/
theorem create_opportunity_expected_revenue_witness :
    (createOpportunity emptyDb demoAuth demoOppBody 0).status = 201 ∧
    (createOpportunity emptyDb demoAuth demoOppBody 0).body
      = ApiBody.ok (newOpportunityRow demoAuth demoOppBody 1 0) ∧
    (newOpportunityRow demoAuth demoOppBody 1 0).expected_revenue = 1500000 := by
  obtain ⟨hgen, hdemo⟩ := create_opportunity_expected_revenue
  obtain ⟨h1, h2, h3, h4⟩ := hgen emptyDb demoAuth demoOppBody 0 2500000 60 rfl rfl
    (by intro o ho; simp [emptyDb] at ho)
  exact ⟨h1, h2, hdemo⟩

/-! ## C8: login failure uniformity -/

/-- C8: when the login request is not rate-limited, all three credential
failures -- unknown or inactive tenant, unknown (or inactive) user, and wrong
password for an existing user -- return the literally identical 401 response
with the generic message Invalid credentials, so the client can observe no
distinction between them. -/
theorem login_failure_uniformity (db : Database) (body : LoginBody) (secret : String)
    (nowMs : Nat)
    (hrl : (rateLimit db.rate_limits body.email "/api/auth/login" 10 nowMs).1 = false) :
    (db.tenants.find? (fun t => t.tenant_key == body.tenantKey) = none →
      login db body secret nowMs
        = { status := 401, body := ApiBody.err "Invalid credentials",
            db := { db with rate_limits :=
              (rateLimit db.rate_limits body.email "/api/auth/login" 10 nowMs).2 } }) ∧
    (∀ tenant, db.tenants.find? (fun t => t.tenant_key == body.tenantKey) = some tenant →
      tenant.is_active = false →
      login db body secret nowMs
        = { status := 401, body := ApiBody.err "Invalid credentials",
            db := { db with rate_limits :=
              (rateLimit db.rate_limits body.email "/api/auth/login" 10 nowMs).2 } }) ∧
    (∀ tenant, db.tenants.find? (fun t => t.tenant_key == body.tenantKey) = some tenant →
      tenant.is_active = true →
      db.users.find? (fun u =>
        u.tenant_id == tenant.id && u.email == body.email && u.is_active) = none →
      login db body secret nowMs
        = { status := 401, body := ApiBody.err "Invalid credentials",
            db := { db with rate_limits :=
              (rateLimit db.rate_limits body.email "/api/auth/login" 10 nowMs).2 } }) ∧
    (∀ tenant user, db.tenants.find? (fun t => t.tenant_key == body.tenantKey) = some tenant →
      tenant.is_active = true →
      db.users.find? (fun u =>
        u.tenant_id == tenant.id && u.email == body.email && u.is_active) = some user →
      verifyPassword body.password user.password_hash = false →
      login db body secret nowMs
        = { status := 401, body := ApiBody.err "Invalid credentials",
            db := { db with rate_limits :=
              (rateLimit db.rate_limits body.email "/api/auth/login" 10 nowMs).2 } }) := by
  refine ⟨?_, ?_, ?_, ?_⟩
  · intro hT
    simp [login, hrl, hT]
  · intro tenant hT hA
    simp [login, hrl, hT, hA]
  · intro tenant hT hA hU
    simp [login, hrl, hT, hA, hU]
  · intro tenant user hT hA hU hP
    simp [login, hrl, hT, hA, hU, hP]

/-- A database holding the active demo tenant and demo user. -/
def loginDb : Database :=
  { emptyDb with tenants := [demoTenant], users := [demoUser] }

/-- Witness for C8: with the correct tenant key and email but a wrong password,
and separately with an unknown email, login returns the same 401 body Invalid
credentials. -/
theorem login_failure_uniformity_witness :
    login loginDb { email := "demo@example.com", password := "wrong-password", tenantKey := "demo" }
        "secret" 100000
      = { status := 401, body := ApiBody.err "Invalid credentials",
          db := { loginDb with rate_limits :=
            (rateLimit loginDb.rate_limits "demo@example.com" "/api/auth/login" 10 100000).2 } } ∧
    login loginDb { email := "nobody@example.com", password := "password123", tenantKey := "demo" }
        "secret" 100000
      = { status := 401, body := ApiBody.err "Invalid credentials",
          db := { loginDb with rate_limits :=
            (rateLimit loginDb.rate_limits "nobody@example.com" "/api/auth/login" 10 100000).2 } } := by
  constructor
  · exact (login_failure_uniformity loginDb
      { email := "demo@example.com", password := "wrong-password", tenantKey := "demo" }
      "secret" 100000 (by decide)).2.2.2 demoTenant demoUser
      (by decide) (by decide) (by decide) (by decide)
  · exact (login_failure_uniformity loginDb
      { email := "nobody@example.com", password := "password123", tenantKey := "demo" }
      "secret" 100000 (by decide)).2.2.1 demoTenant
      (by decide) (by decide) (by decide)

/-! ## C1: cross-tenant isolation -/

/-- C1: cross-tenant isolation.  Every row any list handler returns carries the
tenant id taken from the verified token, so a record created under a different
tenant is never among them; both dashboard aggregations are unchanged by
records of other tenants; updating a record that only exists under another
tenant answers 404 NotFound; and every create handler stamps the new row with
the token tenant and ignores any tenant identifier supplied in the request
body. -/
theorem tenant_isolation (db : Database) (caller : AuthPayload) :
    (∀ (stage : Option String) (ownerId : Option Nat) (item : OppListItem),
      item ∈ getOpportunities db caller stage ownerId →
        item.opp.tenant_id = caller.tenantId) ∧
    (∀ item : ContactListItem, item ∈ getContacts db caller →
      item.contact.tenant_id = caller.tenantId) ∧
    (∀ company : CompanyRow, company ∈ getCompanies db caller →
      company.tenant_id = caller.tenantId) ∧
    (∀ item : CaptureListItem, item ∈ getCaptures db caller →
      item.capture.tenant_id = caller.tenantId) ∧
    (∀ record : OpportunityRow, record.tenant_id ≠ caller.tenantId →
      (∀ (stage : Option String) (ownerId : Option Nat) (item : OppListItem),
        item ∈ getOpportunities db caller stage ownerId → item.opp ≠ record) ∧
      dashboardKpis { db with opportunities := record :: db.opportunities } caller
        = dashboardKpis db caller ∧
      pipelineByStage { db with opportunities := record :: db.opportunities } caller
        = pipelineByStage db caller) ∧
    (∀ (id : Nat) (body : OppUpdateBody) (now : Nat),
      (∀ o ∈ db.opportunities, o.id = id → o.tenant_id ≠ caller.tenantId) →
      updateOpportunity db caller id body now
        = { status := 404, body := ApiBody.err "Opportunity not found", db := db }) ∧
    (∀ (body : OppCreateBody) (now : Nat),
      (createOpportunity db caller body now).db.opportunities
        = db.opportunities ++ [newOpportunityRow caller body db.nextOpportunityId now] ∧
      (newOpportunityRow caller body db.nextOpportunityId now).tenant_id = caller.tenantId ∧
      ∀ t1 t2 : Option Nat,
        createOpportunity db caller { body with tenantId := t1 } now
          = createOpportunity db caller { body with tenantId := t2 } now) ∧
    (∀ body : ContactCreateBody,
      (createContact db caller body).db.contacts
        = db.contacts ++ [newContactRow caller body db.nextContactId] ∧
      (newContactRow caller body db.nextContactId).tenant_id = caller.tenantId ∧
      ∀ t1 t2 : Option Nat,
        createContact db caller { body with tenantId := t1 }
          = createContact db caller { body with tenantId := t2 }) ∧
    (∀ body : CompanyCreateBody,
      (createCompany db caller body).db.companies
        = db.companies ++ [newCompanyRow caller body db.nextCompanyId] ∧
      (newCompanyRow caller body db.nextCompanyId).tenant_id = caller.tenantId ∧
      ∀ t1 t2 : Option Nat,
        createCompany db caller { body with tenantId := t1 }
          = createCompany db caller { body with tenantId := t2 }) ∧
    (∀ (body : CaptureCreateBody) (now : Nat),
      (createCapture db caller body now).db.captures
        = db.captures ++ [newCaptureRow caller body db.nextCaptureId now] ∧
      (newCaptureRow caller body db.nextCaptureId now).tenant_id = caller.tenantId ∧
      ∀ t1 t2 : Option Nat,
        createCapture db caller { body with tenantId := t1 } now
          = createCapture db caller { body with tenantId := t2 } now) := by
  have hOppMem : ∀ (stage : Option String) (ownerId : Option Nat) (item : OppListItem),
      item ∈ getOpportunities db caller stage ownerId →
        item.opp.tenant_id = caller.tenantId := by
    intro stage ownerId item hmem
    simp only [getOpportunities] at hmem
    rw [mem_sortBy] at hmem
    obtain ⟨o, ho, rfl⟩ := List.mem_map.1 hmem
    have hp := (List.mem_filter.1 ho).2
    simp only [Bool.and_eq_true, beq_iff_eq] at hp
    exact hp.1.1
  refine ⟨hOppMem, ?_, ?_, ?_, ?_, ?_, ?_, ?_, ?_, ?_⟩
  · intro item hmem
    simp only [getContacts] at hmem
    rw [mem_sortBy] at hmem
    obtain ⟨c, hc, rfl⟩ := List.mem_map.1 hmem
    have hp := (List.mem_filter.1 hc).2
    simp only [beq_iff_eq] at hp
    exact hp
  · intro company hmem
    simp only [getCompanies] at hmem
    rw [mem_sortBy] at hmem
    have hp := (List.mem_filter.1 hmem).2
    simp only [beq_iff_eq] at hp
    exact hp
  · intro item hmem
    simp only [getCaptures] at hmem
    rw [mem_sortBy] at hmem
    obtain ⟨c, hc, rfl⟩ := List.mem_map.1 hmem
    have hp := (List.mem_filter.1 hc).2
    simp only [beq_iff_eq] at hp
    exact hp
  · intro record hrec
    have hb : (record.tenant_id == caller.tenantId) = false := beq_eq_false_iff_ne.mpr hrec
    refine ⟨?_, ?_, ?_⟩
    · intro stage ownerId item hmem heq
      have := hOppMem stage ownerId item hmem
      rw [heq] at this
      exact hrec this
    · simp [dashboardKpis, List.filter_cons, hb]
    · simp [pipelineByStage, List.filter_cons, hb]
  · intro id body now h
    have hfind : db.opportunities.find?
        (fun o => o.id == id && o.tenant_id == caller.tenantId) = none := by
      rw [List.find?_eq_none]
      intro o ho
      simp only [Bool.and_eq_true, beq_iff_eq, not_and]
      exact h o ho
    simp [updateOpportunity, hfind]
  · intro body now
    refine ⟨?_, rfl, ?_⟩
    · simp only [createOpportunity]
      split <;> rfl
    · intro t1 t2
      cases body
      rfl
  · intro body
    refine ⟨?_, rfl, ?_⟩
    · simp only [createContact]
      split <;> rfl
    · intro t1 t2
      cases body
      rfl
  · intro body
    refine ⟨?_, rfl, ?_⟩
    · simp only [createCompany]
      split <;> rfl
    · intro t1 t2
      cases body
      rfl
  · intro body now
    refine ⟨?_, rfl, ?_⟩
    · simp only [createCapture]
      split <;> rfl
    · intro t1 t2
      cases body
      rfl

/-- Witness for C1 with one tenant-1 opportunity in the database and a caller
from tenant 2: the cross-tenant update answers the uniform 404 with no
mutation, a freshly created opportunity row is stamped with tenant 2, the
dashboard KPIs of tenant 2 are unchanged by the tenant-1 record, and a
client-supplied tenantId in the create body does not change the handler
result. -/
theorem tenant_isolation_witness :
    updateOpportunity staleRevDb otherAuth 1
        { name := none, stage := none, amount := none, probability := none, tenantId := none } 0
      = { status := 404, body := ApiBody.err "Opportunity not found", db := staleRevDb } ∧
    (newOpportunityRow otherAuth demoOppBody staleRevDb.nextOpportunityId 0).tenant_id
      = otherAuth.tenantId ∧
    dashboardKpis { staleRevDb with opportunities := staleRevOpp :: staleRevDb.opportunities }
        otherAuth
      = dashboardKpis staleRevDb otherAuth ∧
    createOpportunity staleRevDb otherAuth { demoOppBody with tenantId := some 1 } 0
      = createOpportunity staleRevDb otherAuth { demoOppBody with tenantId := none } 0 := by
  obtain ⟨h1, h2, h3, h4, h5, h6, h7, h8, h9, h10⟩ := tenant_isolation staleRevDb otherAuth
  exact ⟨h6 1 { name := none, stage := none, amount := none, probability := none,
                tenantId := none } 0 (by decide),
         (h7 demoOppBody 0).2.1,
         (h5 staleRevOpp (by decide)).2.1,
         (h7 demoOppBody 0).2.2 (some 1) none⟩
